import Mathlib

/-!
Verification of the Kelly Criterion calculator core (src/app.js).

Modelling conventions:
* JavaScript numbers are modelled as exact rationals (ℚ). NaN and the
  infinities are represented by the absence of a value (Option.none) at the
  points where the code tests Number.isFinite; this is faithful because every
  finite value the code manipulates on its checked paths stays finite.
* String-to-number conversion (the JS Number builtin on strings) is modelled
  by jsNumber, which covers the decimal numeric-literal grammar (optional
  sign, digits, fraction part, exponent part) and the whitespace trimming the
  builtin performs. Hex, octal and binary literal forms are outside the
  modelled input space (no input in this development uses them); they would
  parse to a finite value in JS but are treated as non-numeric here.
* Expected log growth uses the exact real logarithm (Real.log) in place of
  the floating-point Math.log; the guard deciding definedness is exact
  rational arithmetic, as in the source.
-/

namespace KellyApp

/-- Whitespace trimming on a character list, the model of String.prototype.trim
(and of the trimming the Number builtin performs before parsing). -/
def trimChars (cs : List Char) : List Char :=
  ((cs.dropWhile Char.isWhitespace).reverse.dropWhile Char.isWhitespace).reverse

/-- Value of a list of decimal digit characters, most significant first. -/
def digitsVal (cs : List Char) : ℕ :=
  cs.foldl (fun a c => 10 * a + (c.toNat - 48)) 0

/-- Parse the optional exponent part of a decimal numeric literal; m is the
mantissa already read. The whole remaining input must be consumed. -/
def parseExpPart (m : ℚ) : List Char → Option ℚ
  | [] => some m
  | c :: r =>
    if c = 'e' ∨ c = 'E' then
      let tail : Bool × List Char :=
        match r with
        | '-' :: rr => (true, rr)
        | '+' :: rr => (false, rr)
        | _ => (false, r)
      let ds := tail.2.takeWhile Char.isDigit
      let rest := tail.2.dropWhile Char.isDigit
      if ds = [] ∨ rest ≠ [] then none
      else if tail.1 then some (m / 10 ^ digitsVal ds)
      else some (m * 10 ^ digitsVal ds)
    else none

/-- Parse an unsigned decimal numeric literal: digits, an optional fraction
part, an optional exponent part; at least one digit must appear around the
decimal point. -/
def parseUnsigned (cs : List Char) : Option ℚ :=
  let intDs := cs.takeWhile Char.isDigit
  let r1 := cs.dropWhile Char.isDigit
  match r1 with
  | '.' :: r2 =>
    let fracDs := r2.takeWhile Char.isDigit
    let r3 := r2.dropWhile Char.isDigit
    if intDs = [] ∧ fracDs = [] then none
    else parseExpPart ((digitsVal intDs : ℚ) + (digitsVal fracDs : ℚ) / 10 ^ fracDs.length) r3
  | _ =>
    if intDs = [] then none
    else parseExpPart (digitsVal intDs : ℚ) r1

/-- Parse an optionally signed decimal numeric literal. -/
def parseSigned : List Char → Option ℚ
  | '-' :: r => (parseUnsigned r).map (fun x => -x)
  | '+' :: r => parseUnsigned r
  | cs => parseUnsigned cs

/-- Model of the JS Number builtin applied to an already trimmed character
list: the empty input converts to 0, otherwise the decimal literal grammar
applies; none stands for a non-finite result (NaN). -/
def jsNumberChars (cs : List Char) : Option ℚ :=
  if cs = [] then some 0 else parseSigned cs

/-- Model of the JS Number builtin on a string: trim, then convert; none
stands for a non-finite result, so Number.isFinite corresponds to isSome. -/
def jsNumber (s : String) : Option ℚ :=
  jsNumberChars (trimChars s.toList)

/-- Split a character list at every occurrence of the separator, the model of
String.prototype.split with a one-character separator. -/
def splitChar (sep : Char) : List Char → List (List Char)
  | [] => [[]]
  | c :: rest =>
    match splitChar sep rest with
    | [] => [[]]
    | h :: t => if c = sep then [] :: h :: t else (c :: h) :: t

/-- Probability input format selector. -/
inductive PFormat
  | decimal
  | percent
deriving DecidableEq

/-- Odds input format selector. -/
inductive OddsFormat
  | decimal
  | fractional
deriving DecidableEq

/-- Model of parseProbability (src/app.js lines 56-64): convert the text to a
number, fail if not finite, divide by 100 in percent format. -/
def parseProbability (value : String) (format : PFormat) : Option ℚ :=
  match jsNumber value with
  | none => none
  | some x =>
    match format with
    | PFormat.percent => some (x / 100)
    | PFormat.decimal => some x

/-- Model of parseNetOdds (src/app.js lines 72-93): trim, reject empty input;
decimal odds D give b = D - 1 when D is finite and D > 1; fractional odds A/B
give b = A/B when the split yields exactly two finite positive parts. The
Number calls act on already trimmed text, so the builtin trim is a no-op and
jsNumberChars is applied directly. -/
def parseNetOdds (oddsStr : String) (format : OddsFormat) : Option ℚ :=
  let s := trimChars oddsStr.toList
  if s = [] then none
  else
    match format with
    | OddsFormat.decimal =>
      match jsNumberChars s with
      | none => none
      | some D => if D ≤ 1 then none else some (D - 1)
    | OddsFormat.fractional =>
      match splitChar '/' s with
      | [a, b] =>
        match jsNumberChars (trimChars a), jsNumberChars (trimChars b) with
        | some A, some B => if B ≤ 0 ∨ A ≤ 0 then none else some (A / B)
        | _, _ => none
      | _ => none

/-- Model of clamp (src/app.js lines 106-108): Math.min(max, Math.max(min, x)). -/
def clamp (x mn mx : ℚ) : ℚ :=
  min mx (max mn x)

/-- Model of kellyFraction (src/app.js lines 120-123): q = 1 - p and
f = (b * p - q) / b. Division by zero yields 0 in ℚ where JS yields a
non-finite value; every call site has b > 0. -/
def kellyFraction (p b : ℚ) : ℚ :=
  let q := 1 - p
  (b * p - q) / b

/-- Model of expectedLogGrowth (src/app.js lines 134-143): null when the win
factor 1 + f * b or the lose factor 1 - f is not positive, otherwise the exact
value p * ln(1 + f * b) + q * ln(1 - f) with q = 1 - p. -/
noncomputable def expectedLogGrowth (p b f : ℚ) : Option ℝ :=
  let q := 1 - p
  let winFactor := 1 + f * b
  let loseFactor := 1 - f
  if winFactor ≤ 0 ∨ loseFactor ≤ 0 then none
  else some ((p : ℝ) * Real.log ((winFactor : ℚ) : ℝ) + (q : ℝ) * Real.log ((loseFactor : ℚ) : ℝ))

/-- Validation message for a missing or non-numeric probability. -/
def probMissingMsg : String := "Probability (p) is missing or not a number."

/-- Validation message for a probability outside the open unit interval. -/
def probRangeMsg : String := "Probability (p) must be between 0 and 1 (exclusive)."

/-- Validation message for missing or invalid odds. -/
def oddsInvalidMsg : String := "Odds are missing/invalid (check format)."

/-- Validation message for non-positive net odds. -/
def oddsNonposMsg : String := "Net odds (b) must be > 0."

/-- Model of the problem accumulation in update (src/app.js lines 157-163):
all four checks run, in source order, and every failing check contributes its
message; none is finite in the model, so the isFinite disjuncts collapse. -/
def validationProblems (pOpt bOpt : Option ℚ) : List String :=
  (match pOpt with
    | none => [probMissingMsg]
    | some _ => []) ++
  (match pOpt with
    | none => []
    | some p => if p ≤ 0 ∨ 1 ≤ p then [probRangeMsg] else []) ++
  (match bOpt with
    | none => [oddsInvalidMsg]
    | some _ => []) ++
  (match bOpt with
    | none => []
    | some b => if b ≤ 0 then [oddsNonposMsg] else [])

/-- Numeric result bundle of a successful update run (the KellyResult of the
data model): net odds, loss probability, raw and clamped Kelly fractions, the
multiplied fraction before and after the safety clamp, and the optional stake. -/
structure KellyResult where
  b : ℚ
  q : ℚ
  fStar : ℚ
  fStarClamped : ℚ
  fAppliedRaw : ℚ
  fApplied : ℚ
  stake : Option ℚ
deriving DecidableEq

/-- Raw inputs read by update: bankroll text, probability text and format,
odds text and format, and the numeric fractional-Kelly multiplier k (the
slider always holds a numeric value). -/
structure Inputs where
  bankroll : String
  pText : String
  pFormat : PFormat
  odds : String
  oddsFormat : OddsFormat
  k : ℚ

/-- Success-path arithmetic of update (src/app.js lines 179-200): q, raw
Kelly fraction, clamp of negatives to 0, the multiplier k, the safety clamp
to at most 0.9999, and the optional stake for a positive finite bankroll. -/
def buildResult (p b k : ℚ) (bankroll : String) : KellyResult :=
  let q := 1 - p
  let fStar := kellyFraction p b
  let fStarClamped := max 0 fStar
  let fAppliedRaw := k * fStarClamped
  let fApplied := clamp fAppliedRaw 0 (9999 / 10000)
  let stake :=
    if bankroll = "" then none
    else
      match jsNumber bankroll with
      | some br => if 0 < br then some (br * fApplied) else none
      | none => none
  ⟨b, q, fStar, fStarClamped, fAppliedRaw, fApplied, stake⟩

/-- Model of update (src/app.js lines 149-203): parse both inputs, accumulate
every validation problem; when any problem exists the run yields only the
problem list (all numeric outputs suppressed), otherwise the numeric bundle. -/
def update (i : Inputs) : Sum (List String) KellyResult :=
  match parseProbability i.pText i.pFormat, parseNetOdds i.odds i.oddsFormat with
  | some p, some b =>
    if validationProblems (some p) (some b) = [] then
      Sum.inr (buildResult p b i.k i.bankroll)
    else Sum.inl (validationProblems (some p) (some b))
  | pOpt, bOpt => Sum.inl (validationProblems pOpt bOpt)

/-- Growth output of update (src/app.js line 203): on the success path the
code evaluates expectedLogGrowth at the parsed p and b and the applied
fraction; on the validation-failure path no growth value exists. -/
noncomputable def updateGrowth (i : Inputs) : Option ℝ :=
  match parseProbability i.pText i.pFormat, parseNetOdds i.odds i.oddsFormat, update i with
  | some p, some b, Sum.inr r => expectedLogGrowth p b r.fApplied
  | _, _, _ => none

/-- Inputs of end-to-end scenario 1: probability text 0.55 in decimal format,
odds text 2.10 in decimal format, multiplier k = 1, bankroll text 1000. -/
def scenario1 : Inputs :=
  ⟨"1000", "0.55", PFormat.decimal, "2.10", OddsFormat.decimal, 1⟩

/-- Clamping into the interval from 0 to a nonnegative upper bound lands in
that interval, whatever the clamped value is. -/
theorem clamp_mem (x c : ℚ) (hc : 0 ≤ c) : 0 ≤ clamp x 0 c ∧ clamp x 0 c ≤ c :=
  ⟨le_min hc (le_max_left 0 x), min_le_left c (max 0 x)⟩

/-- Claim C6: expectedLogGrowth returns null exactly when f is at least 1 or
f times b is at most -1; in every other case, for p in the open unit interval
and b positive, it returns the number p ln(1 + f b) + (1 - p) ln(1 - f). -/
theorem expectedLogGrowth_null_iff (p b f : ℚ) :
    (expectedLogGrowth p b f = none ↔ (1 ≤ f ∨ f * b ≤ -1)) ∧
    (f < 1 → -1 < f * b → 0 < p → p < 1 → 0 < b →
      expectedLogGrowth p b f =
        some ((p : ℝ) * Real.log (1 + (f : ℝ) * (b : ℝ)) + (1 - (p : ℝ)) * Real.log (1 - (f : ℝ)))) := by
  constructor
  · simp only [expectedLogGrowth]
    split
    case isTrue h =>
      refine iff_of_true rfl ?_
      rcases h with h | h
      · exact Or.inr (by linarith)
      · exact Or.inl (by linarith)
    case isFalse h =>
      push_neg at h
      refine iff_of_false (by simp) ?_
      push_neg
      exact ⟨by linarith [h.2], by linarith [h.1]⟩
  · intro h1 h2 _ _ _
    simp only [expectedLogGrowth]
    rw [if_neg (by push_neg; exact ⟨by linarith, by linarith⟩)]
    congr 1
    push_cast
    ring

/-- Witness for claim C6 at p = 1/2, b = 1, f = 1/2. -/
theorem expectedLogGrowth_null_iff_witness :
    expectedLogGrowth (1/2) 1 (1/2) =
      some ((((1 : ℚ)/2 : ℚ) : ℝ) * Real.log (1 + (((1 : ℚ)/2 : ℚ) : ℝ) * ((1 : ℚ) : ℝ)) +
        (1 - (((1 : ℚ)/2 : ℚ) : ℝ)) * Real.log (1 - (((1 : ℚ)/2 : ℚ) : ℝ))) :=
  (expectedLogGrowth_null_iff (1/2) 1 (1/2)).2 (by norm_num) (by norm_num)
    (by norm_num) (by norm_num) (by norm_num)

/-- Claim C7: whenever the odds text converts to a finite number D, the
decimal-format parse yields D - 1 exactly when D exceeds 1 and null when
D is at most 1; a non-finite conversion always yields null. -/
theorem parseNetOdds_decimal_spec (s : String) :
    (∀ D : ℚ, jsNumber s = some D →
      parseNetOdds s OddsFormat.decimal = if 1 < D then some (D - 1) else none) ∧
    (jsNumber s = none → parseNetOdds s OddsFormat.decimal = none) := by
  simp only [jsNumber, parseNetOdds]
  constructor
  · intro D hD
    by_cases h0 : trimChars s.toList = []
    · rw [h0] at hD
      simp [jsNumberChars] at hD
      subst hD
      rw [if_pos h0]
      norm_num
    · rw [if_neg h0, hD]
      show (if D ≤ 1 then none else some (D - 1)) = if 1 < D then some (D - 1) else none
      by_cases h1 : D ≤ 1
      · rw [if_pos h1, if_neg (not_lt.mpr h1)]
      · rw [if_neg h1, if_pos (lt_of_not_le h1)]
  · intro hN
    by_cases h0 : trimChars s.toList = []
    · rw [if_pos h0]
    · rw [if_neg h0, hN]

/-- Witness for claim C7 at odds text 2.10, which converts to 21/10. -/
theorem parseNetOdds_decimal_spec_witness :
    parseNetOdds ("2.10") OddsFormat.decimal =
      if 1 < (21 : ℚ)/10 then some ((21 : ℚ)/10 - 1) else none :=
  (parseNetOdds_decimal_spec ("2.10")).1 ((21 : ℚ)/10) (by
    simp +decide [jsNumber, jsNumberChars, parseSigned, parseUnsigned, parseExpPart,
      digitsVal, trimChars]
    all_goals norm_num)

/-- Claim C8: kellyFraction computes exactly the full Kelly formula
(b p - (1 - p)) / b for p in the open unit interval and positive b. -/
theorem kellyFraction_direct (p b : ℚ) (hp0 : 0 < p) (hp1 : p < 1) (hb : 0 < b) :
    kellyFraction p b = (b * p - (1 - p)) / b := rfl

/-- Witness for claim C8 at p = 1/2, b = 2. -/
theorem kellyFraction_direct_witness :
    kellyFraction (1/2) 2 = (2 * ((1 : ℚ)/2) - (1 - (1 : ℚ)/2)) / 2 :=
  kellyFraction_direct (1/2) 2 (by norm_num) (by norm_num) (by norm_num)

/-- Inversion of a successful update run: the parses succeeded, the parsed
values passed every validation check, and the bundle is the success-path
arithmetic applied to them. -/
theorem update_inr (i : Inputs) (r : KellyResult) (h : update i = Sum.inr r) :
    ∃ p b, parseProbability i.pText i.pFormat = some p ∧
      parseNetOdds i.odds i.oddsFormat = some b ∧
      0 < p ∧ p < 1 ∧ 0 < b ∧ r = buildResult p b i.k i.bankroll := by
  simp only [update] at h
  rcases hp : parseProbability i.pText i.pFormat with _ | p <;> rw [hp] at h
  · simp at h
  rcases hb : parseNetOdds i.odds i.oddsFormat with _ | b <;> rw [hb] at h
  · simp at h
  refine ⟨p, b, rfl, rfl, ?_⟩
  have h2 : (if validationProblems (some p) (some b) = [] then
      Sum.inr (buildResult p b i.k i.bankroll)
    else Sum.inl (validationProblems (some p) (some b))) = Sum.inr r := h
  by_cases hv : validationProblems (some p) (some b) = []
  · rw [if_pos hv] at h2
    have hpr : ¬(p ≤ 0 ∨ 1 ≤ p) := by
      intro hx
      simp only [validationProblems, if_pos hx] at hv
      simp at hv
    have hbr : ¬ b ≤ 0 := by
      intro hx
      simp only [validationProblems, if_pos hx] at hv
      simp at hv
    push_neg at hpr hbr
    injection h2 with h2
    exact ⟨hpr.1, hpr.2, hbr, h2.symm⟩
  · rw [if_neg hv] at h2
    simp at h2

/-- Claim C2: on the success path of the orchestrator the growth field is
always present; the clamp of fApplied makes both logarithm arguments positive,
so the defensive null branch of expectedLogGrowth is unreachable. -/
theorem growth_present_on_success (i : Inputs) (r : KellyResult)
    (h : update i = Sum.inr r) : (updateGrowth i).isSome = true := by
  obtain ⟨p, b, hp, hb, _, _, hb0, hr⟩ := update_inr i r h
  have hf : r.fApplied = clamp (i.k * max 0 (kellyFraction p b)) 0 (9999 / 10000) := by
    rw [hr]; rfl
  obtain ⟨hf0, hf1⟩ := clamp_mem (i.k * max 0 (kellyFraction p b)) (9999 / 10000) (by norm_num)
  rw [← hf] at hf0 hf1
  simp only [updateGrowth, hp, hb, h, expectedLogGrowth]
  rw [if_neg ?_]
  · simp
  · push_neg
    constructor
    · nlinarith
    · linarith

/-- Witness for claim C2 on the scenario-1 inputs. -/
theorem growth_present_on_success_witness :
    (updateGrowth ⟨"1000", "0.55", PFormat.decimal, "2.10", OddsFormat.decimal, 1⟩).isSome = true :=
  growth_present_on_success ⟨"1000", "0.55", PFormat.decimal, "2.10", OddsFormat.decimal, 1⟩
    ⟨11/10, 9/20, 31/220, 31/220, 31/220, 31/220, some (1550/11)⟩ (by
      simp +decide [update, parseProbability, parseNetOdds, jsNumber, jsNumberChars,
        parseSigned, parseUnsigned, parseExpPart, digitsVal, trimChars, splitChar,
        validationProblems, buildResult, kellyFraction, clamp]
      all_goals norm_num)

/-- Claim C3: for any multiplier k that is at least 0, the applied fraction of
a successful run, clamp(k times the clamped Kelly fraction, 0, 0.9999), lies
in the closed interval from 0 to 0.9999. -/
theorem fApplied_in_range (i : Inputs) (r : KellyResult) (hk : 0 ≤ i.k)
    (h : update i = Sum.inr r) : 0 ≤ r.fApplied ∧ r.fApplied ≤ 9999 / 10000 := by
  obtain ⟨p, b, _, _, _, _, _, hr⟩ := update_inr i r h
  have hf : r.fApplied = clamp (i.k * max 0 (kellyFraction p b)) 0 (9999 / 10000) := by
    rw [hr]; rfl
  rw [hf]
  exact clamp_mem _ _ (by norm_num)

/-- Witness for claim C3 on the scenario-1 inputs. -/
theorem fApplied_in_range_witness :
    0 ≤ (31 : ℚ)/220 ∧ (31 : ℚ)/220 ≤ 9999 / 10000 :=
  fApplied_in_range ⟨"1000", "0.55", PFormat.decimal, "2.10", OddsFormat.decimal, 1⟩
    ⟨11/10, 9/20, 31/220, 31/220, 31/220, 31/220, some (1550/11)⟩ (by norm_num) (by
      simp +decide [update, parseProbability, parseNetOdds, jsNumber, jsNumberChars,
        parseSigned, parseUnsigned, parseExpPart, digitsVal, trimChars, splitChar,
        validationProblems, buildResult, kellyFraction, clamp]
      all_goals norm_num)

/-- Claim C4: whenever any validation check fails, update returns the full
accumulated problem list, one entry per violated precondition in source
order — it never stops at the first problem — and the result carries no
numeric output at all, only that list. -/
theorem validation_reports_all_problems (i : Inputs)
    (h : validationProblems (parseProbability i.pText i.pFormat)
        (parseNetOdds i.odds i.oddsFormat) ≠ []) :
    update i = Sum.inl (validationProblems (parseProbability i.pText i.pFormat)
      (parseNetOdds i.odds i.oddsFormat)) := by
  simp only [update]
  cases hp : parseProbability i.pText i.pFormat with
  | none =>
    cases hb : parseNetOdds i.odds i.oddsFormat with
    | none => rfl
    | some b => rfl
  | some p =>
    cases hb : parseNetOdds i.odds i.oddsFormat with
    | none => rfl
    | some b =>
      rw [hp, hb] at h
      show (if validationProblems (some p) (some b) = [] then
          Sum.inr (buildResult p b i.k i.bankroll)
        else Sum.inl (validationProblems (some p) (some b))) =
        Sum.inl (validationProblems (some p) (some b))
      rw [if_neg h]

/-- Witness for claim C4: a non-numeric probability together with invalid
decimal odds yields exactly the two corresponding problems. -/
theorem validation_reports_all_problems_witness :
    update ⟨"", "abc", PFormat.decimal, "0.5", OddsFormat.decimal, 1⟩ =
      Sum.inl [probMissingMsg, oddsInvalidMsg] := by
  have h1 : validationProblems
      (parseProbability ("abc") PFormat.decimal)
      (parseNetOdds ("0.5") OddsFormat.decimal) = [probMissingMsg, oddsInvalidMsg] := by
    simp +decide [validationProblems, parseProbability, parseNetOdds, jsNumber, jsNumberChars,
      parseSigned, parseUnsigned, parseExpPart, digitsVal, trimChars]
    all_goals norm_num
  have h2 := validation_reports_all_problems
    ⟨"", "abc", PFormat.decimal, "0.5", OddsFormat.decimal, 1⟩ (by rw [h1]; simp)
  rw [h1] at h2
  exact h2

/-- Claim C1 counterexample: on the scenario-1 inputs the code produces a raw
Kelly fraction of 31/220 = 0.14090..., and a stake of 1550/11 = 140.90...;
these are not within any reasonable tolerance of the claimed 0.0909 and 90.91
(they differ by more than 1/25 and more than 40 respectively). -/
theorem scenario1_claim_false :
    update scenario1 =
      Sum.inr ⟨11/10, 9/20, 31/220, 31/220, 31/220, 31/220, some (1550/11)⟩ ∧
    ¬ |(31 : ℚ)/220 - 909/10000| ≤ 1/25 ∧ ¬ |(1550 : ℚ)/11 - 9091/100| ≤ 40 := by
  refine ⟨?_, ?_, ?_⟩
  · simp +decide [update, scenario1, parseProbability, parseNetOdds, jsNumber, jsNumberChars,
      parseSigned, parseUnsigned, parseExpPart, digitsVal, trimChars, splitChar,
      validationProblems, buildResult, kellyFraction, clamp]
    all_goals norm_num
  · intro hcon
    rw [abs_le] at hcon
    norm_num at hcon
  · intro hcon
    rw [abs_le] at hcon
    norm_num at hcon

/-- Claim C1 as amended: the scenario-1 run yields b = 1.10, q = 0.45, a raw
Kelly fraction of 31/220 which is approximately 0.1409, the same value
clamped and applied, and a stake of 1550/11 which is approximately 140.91. -/
theorem scenario1_results :
    update scenario1 =
      Sum.inr ⟨11/10, 9/20, 31/220, 31/220, 31/220, 31/220, some (1550/11)⟩ ∧
    |(31 : ℚ)/220 - 1409/10000| ≤ 1/10000 ∧ |(1550 : ℚ)/11 - 14091/100| ≤ 1/100 := by
  refine ⟨?_, ?_, ?_⟩
  · simp +decide [update, scenario1, parseProbability, parseNetOdds, jsNumber, jsNumberChars,
      parseSigned, parseUnsigned, parseExpPart, digitsVal, trimChars, splitChar,
      validationProblems, buildResult, kellyFraction, clamp]
    all_goals norm_num
  · rw [abs_le]
    constructor <;> norm_num
  · rw [abs_le]
    constructor <;> norm_num

/-- Claim C5: fractional odds text 11/10 parses to net odds 11/10 = 1.1, and
a run with those odds is identical — bundle and growth value alike — to the
run with decimal odds text 2.10, all other inputs equal. -/
theorem fractional_equals_decimal (br pt : String) (pf : PFormat) (k : ℚ) :
    parseNetOdds ("11/10") OddsFormat.fractional = some (11/10) ∧
    update ⟨br, pt, pf, "11/10", OddsFormat.fractional, k⟩ =
      update ⟨br, pt, pf, "2.10", OddsFormat.decimal, k⟩ ∧
    updateGrowth ⟨br, pt, pf, "11/10", OddsFormat.fractional, k⟩ =
      updateGrowth ⟨br, pt, pf, "2.10", OddsFormat.decimal, k⟩ := by
  have e1 : parseNetOdds ("11/10") OddsFormat.fractional = some (11/10) := by
    simp +decide [parseNetOdds, jsNumberChars, parseSigned, parseUnsigned, parseExpPart,
      digitsVal, trimChars, splitChar]
  have e2 : parseNetOdds ("2.10") OddsFormat.decimal = some (11/10) := by
    simp +decide [parseNetOdds, jsNumberChars, parseSigned, parseUnsigned, parseExpPart,
      digitsVal, trimChars]
    all_goals norm_num
  have hupd : update ⟨br, pt, pf, "11/10", OddsFormat.fractional, k⟩ =
      update ⟨br, pt, pf, "2.10", OddsFormat.decimal, k⟩ := by
    simp only [update]
    rw [e1, e2]
  refine ⟨e1, hupd, ?_⟩
  simp only [updateGrowth]
  rw [e1, e2, hupd]

/-- Positivity of every successfully parsed net odds value: the decimal
branch returns D - 1 only for D above 1, and the fractional branch returns
A / B only for positive A and B. -/
theorem parseNetOdds_pos_aux (s : String) (fmt : OddsFormat) (v : ℚ)
    (h : parseNetOdds s fmt = some v) : 0 < v := by
  simp only [parseNetOdds] at h
  by_cases h0 : trimChars s.toList = []
  · rw [if_pos h0] at h
    exact Option.noConfusion h
  · rw [if_neg h0] at h
    cases fmt with
    | decimal =>
      cases hD : jsNumberChars (trimChars s.toList) with
      | none =>
        rw [hD] at h
        exact Option.noConfusion h
      | some D =>
        rw [hD] at h
        have h2 : (if D ≤ 1 then none else some (D - 1)) = some v := h
        by_cases h1 : D ≤ 1
        · rw [if_pos h1] at h2
          exact Option.noConfusion h2
        · rw [if_neg h1] at h2
          injection h2 with h2
          push_neg at h1
          rw [← h2]
          linarith
    | fractional =>
      rcases hsp : splitChar '/' (trimChars s.toList) with _ | ⟨a, _ | ⟨a2, _ | ⟨a3, tl⟩⟩⟩ <;>
        rw [hsp] at h
      · exact Option.noConfusion h
      · exact Option.noConfusion h
      · have h2 : (match jsNumberChars (trimChars a), jsNumberChars (trimChars a2) with
            | some A, some B => if B ≤ 0 ∨ A ≤ 0 then none else some (A / B)
            | _, _ => none) = some v := h
        cases hA : jsNumberChars (trimChars a) with
        | none =>
          rw [hA] at h2
          exact Option.noConfusion h2
        | some A =>
          cases hB : jsNumberChars (trimChars a2) with
          | none =>
            rw [hA, hB] at h2
            exact Option.noConfusion h2
          | some B =>
            rw [hA, hB] at h2
            have h3 : (if B ≤ 0 ∨ A ≤ 0 then none else some (A / B)) = some v := h2
            by_cases hc : B ≤ 0 ∨ A ≤ 0
            · rw [if_pos hc] at h3
              exact Option.noConfusion h3
            · rw [if_neg hc] at h3
              injection h3 with h3
              push_neg at hc
              rw [← h3]
              exact div_pos hc.2 hc.1
      · exact Option.noConfusion h

/-- Claim C9: every non-null result of parseNetOdds is strictly positive, and
consequently the net-odds-must-be-positive validation branch of the
orchestrator can never fire: its message never appears in the problem list. -/
theorem parseNetOdds_positive (s : String) (fmt : OddsFormat) (v : ℚ) (i : Inputs)
    (h : parseNetOdds s fmt = some v) :
    0 < v ∧ oddsNonposMsg ∉ validationProblems (parseProbability i.pText i.pFormat)
      (parseNetOdds i.odds i.oddsFormat) := by
  refine ⟨parseNetOdds_pos_aux s fmt v h, ?_⟩
  cases hb : parseNetOdds i.odds i.oddsFormat with
  | none =>
    cases hp : parseProbability i.pText i.pFormat with
    | none =>
      simp +decide [validationProblems, probMissingMsg, oddsInvalidMsg, oddsNonposMsg]
    | some p =>
      by_cases hc : p ≤ 0 ∨ 1 ≤ p
      · simp +decide [validationProblems, if_pos hc, probRangeMsg, oddsInvalidMsg, oddsNonposMsg]
      · simp +decide [validationProblems, if_neg hc, oddsInvalidMsg, oddsNonposMsg]
  | some w =>
    have hw : 0 < w := parseNetOdds_pos_aux i.odds i.oddsFormat w hb
    cases hp : parseProbability i.pText i.pFormat with
    | none =>
      simp +decide [validationProblems, if_neg (not_le.mpr hw), probMissingMsg, oddsNonposMsg]
    | some p =>
      by_cases hc : p ≤ 0 ∨ 1 ≤ p
      · simp +decide [validationProblems, if_pos hc, if_neg (not_le.mpr hw), probRangeMsg,
          oddsNonposMsg]
      · simp +decide [validationProblems, if_neg hc, if_neg (not_le.mpr hw)]

/-- Witness for claim C9 at fractional odds text 11/10 and the scenario-1
orchestrator inputs. -/
theorem parseNetOdds_positive_witness :
    0 < (11 : ℚ)/10 ∧
    oddsNonposMsg ∉ validationProblems (parseProbability ("0.55") PFormat.decimal)
      (parseNetOdds ("2.10") OddsFormat.decimal) :=
  parseNetOdds_positive ("11/10") OddsFormat.fractional (11/10)
    ⟨"1000", "0.55", PFormat.decimal, "2.10", OddsFormat.decimal, 1⟩ (by
      simp +decide [parseNetOdds, jsNumberChars, parseSigned, parseUnsigned, parseExpPart,
        digitsVal, trimChars, splitChar])

/-- Conversion of the empty probability text: the Number builtin maps the
empty string to 0, so parseProbability returns 0 in either format. -/
theorem parseProbability_empty_eq (f : PFormat) : parseProbability ("") f = some 0 := by
  cases f with
  | decimal =>
    simp +decide [parseProbability, jsNumber, jsNumberChars, trimChars]
  | percent =>
    simp +decide [parseProbability, jsNumber, jsNumberChars, trimChars]

/-- Claim C10: parseProbability on the empty string returns 0 in both formats,
never null; hence an empty probability field is diagnosed by the orchestrator
as out of the open unit interval, not as missing or non-numeric. -/
theorem parseProbability_empty_zero (f : PFormat) (i : Inputs) :
    parseProbability ("") f = some 0 ∧
    (i.pText = "" →
      probMissingMsg ∉ validationProblems (parseProbability i.pText i.pFormat)
        (parseNetOdds i.odds i.oddsFormat) ∧
      probRangeMsg ∈ validationProblems (parseProbability i.pText i.pFormat)
        (parseNetOdds i.odds i.oddsFormat)) := by
  refine ⟨parseProbability_empty_eq f, fun hpt => ?_⟩
  rw [hpt, parseProbability_empty_eq i.pFormat]
  have h0 : (0 : ℚ) ≤ 0 ∨ (1 : ℚ) ≤ 0 := Or.inl le_rfl
  cases hb : parseNetOdds i.odds i.oddsFormat with
  | none =>
    constructor
    · simp +decide [validationProblems, if_pos h0, probMissingMsg, probRangeMsg, oddsInvalidMsg]
    · simp [validationProblems, if_pos h0]
  | some b =>
    by_cases hc : b ≤ 0
    · constructor
      · simp +decide [validationProblems, if_pos h0, if_pos hc, probMissingMsg, probRangeMsg,
          oddsNonposMsg]
      · simp [validationProblems, if_pos h0]
    · constructor
      · simp +decide [validationProblems, if_pos h0, if_neg hc, probMissingMsg, probRangeMsg]
      · simp [validationProblems, if_pos h0]

/-- Witness for claim C10 on fully empty inputs in decimal formats. -/
theorem parseProbability_empty_zero_witness :
    probMissingMsg ∉ validationProblems (parseProbability ("") PFormat.decimal)
      (parseNetOdds ("") OddsFormat.decimal) ∧
    probRangeMsg ∈ validationProblems (parseProbability ("") PFormat.decimal)
      (parseNetOdds ("") OddsFormat.decimal) :=
  (parseProbability_empty_zero PFormat.decimal
    ⟨"", "", PFormat.decimal, "", OddsFormat.decimal, 1⟩).2 rfl

end KellyApp
